import Mathlib

/-!
Verification development for the DripScript wardrobe-recommendation core
(`src/ai-ml/clothing_ai.py`), shallowly embedded in Lean 4.

Text is modelled as `List Char` (Python `str`); Python's substring test
`kw in s` is `isSubstr`, `str.lower()` is `toLowerChars` (ASCII), and
`str.split()` is `splitWords`.  Fallible operations (`random.choice` on a
possibly-empty list, float division) are modelled with `Option`; float
arithmetic is modelled exactly over `ℚ` (all quantities involved are small
exact rationals).  The pseudo-random draws of the outfit engine are made
explicit through a record `Rng` of coin flips and pick indices, universally
quantified in the theorems ("for every outcome of the random choices").
-/

namespace DripScript

/-- ASCII lowercase of one character, as Python `str.lower()` acts on ASCII. -/
def toLowerChar (c : Char) : Char :=
  if 'A' ≤ c ∧ c ≤ 'Z' then Char.ofNat (c.toNat + 32) else c

/-- Python `str.lower()` on ASCII text. -/
def toLowerChars (s : List Char) : List Char := s.map toLowerChar

/-- Python's substring test `needle in hay`. -/
def isSubstr (needle hay : List Char) : Bool :=
  (List.range (hay.length + 1)).any fun i => needle.isPrefixOf (hay.drop i)

/-- Whitespace characters recognized by Python `str.split()` (ASCII subset). -/
def isSpaceChar (c : Char) : Bool := c = ' ' || c = '\t' || c = '\n' || c = '\r'

/-- Helper for `splitWords`: accumulates the current (reversed) word. -/
def splitWordsAux : List Char → List Char → List (List Char)
  | [], acc => if acc.isEmpty then [] else [acc.reverse]
  | c :: cs, acc =>
    if isSpaceChar c then
      if acc.isEmpty then splitWordsAux cs []
      else acc.reverse :: splitWordsAux cs []
    else splitWordsAux cs (c :: acc)

/-- Python `str.split()`: split on whitespace runs, dropping empty words. -/
def splitWords (s : List Char) : List (List Char) := splitWordsAux s []

/-- "The text contains `kw` as an exact word": `kw` is one of the
whitespace-separated words of the lower-cased text. -/
def contains_exact_word (text kw : List Char) : Bool :=
  decide (kw ∈ splitWords (toLowerChars text))

/-- `ClothingType` enumeration of `clothing_ai.py`, in declared order. -/
inductive ClothingType
  | hoodie | t_shirt | jeans | shorts | jacket | sweater
  | dress | skirt | pants | sneakers | boots | sandals
deriving DecidableEq, Fintype, Repr

/-- `Style` enumeration of `clothing_ai.py`, in declared order. -/
inductive Style
  | casual | formal | sporty | trendy | vintage | minimalist
deriving DecidableEq, Fintype, Repr

/-- `WeatherType` enumeration of `clothing_ai.py`, in declared order. -/
inductive WeatherType
  | hot | warm | mild | cool | cold | rainy | snowy
deriving DecidableEq, Fintype, Repr

/-- The `.value` string of each `ClothingType` member. -/
def typeValue : ClothingType → List Char
  | .hoodie => "hoodie".data
  | .t_shirt => "t-shirt".data
  | .jeans => "jeans".data
  | .shorts => "shorts".data
  | .jacket => "jacket".data
  | .sweater => "sweater".data
  | .dress => "dress".data
  | .skirt => "skirt".data
  | .pants => "pants".data
  | .sneakers => "sneakers".data
  | .boots => "boots".data
  | .sandals => "sandals".data

/-- The `.value` string of each `WeatherType` member. -/
def weatherValue : WeatherType → List Char
  | .hot => "hot".data
  | .warm => "warm".data
  | .mild => "mild".data
  | .cool => "cool".data
  | .cold => "cold".data
  | .rainy => "rainy".data
  | .snowy => "snowy".data

/-- Declared iteration order of the `ClothingType` enumeration
(Python dicts preserve insertion order). -/
def clothingTypeOrder : List ClothingType :=
  [.hoodie, .t_shirt, .jeans, .shorts, .jacket, .sweater,
   .dress, .skirt, .pants, .sneakers, .boots, .sandals]

/-- Declared iteration order of the `Style` enumeration. -/
def styleOrder : List Style :=
  [.casual, .formal, .sporty, .trendy, .vintage, .minimalist]

/-- Declared iteration order of the `WeatherType` enumeration. -/
def weatherOrder : List WeatherType :=
  [.hot, .warm, .mild, .cool, .cold, .rainy, .snowy]

/-- `ClothingLabeler.clothing_keywords` table. -/
def clothing_keywords : ClothingType → List (List Char)
  | .hoodie => ["hoodie".data, "hooded".data, "pullover".data]
  | .t_shirt => ["t-shirt".data, "tee".data, "shirt".data, "top".data]
  | .jeans => ["jeans".data, "denim".data]
  | .shorts => ["shorts".data, "short pants".data]
  | .jacket => ["jacket".data, "blazer".data, "coat".data]
  | .sweater => ["sweater".data, "jumper".data, "cardigan".data]
  | .dress => ["dress".data, "gown".data]
  | .skirt => ["skirt".data, "mini".data, "maxi".data]
  | .pants => ["pants".data, "trousers".data, "slacks".data]
  | .sneakers => ["sneakers".data, "trainers".data, "athletic shoes".data]
  | .boots => ["boots".data, "ankle boots".data, "hiking boots".data]
  | .sandals => ["sandals".data, "flip flops".data, "slides".data]

/-- `ClothingLabeler.style_keywords` table. -/
def style_keywords : Style → List (List Char)
  | .casual => ["casual".data, "relaxed".data, "comfortable".data, "everyday".data]
  | .formal => ["formal".data, "business".data, "professional".data, "elegant".data]
  | .sporty => ["sporty".data, "athletic".data, "active".data, "gym".data]
  | .trendy => ["trendy".data, "fashionable".data, "stylish".data, "modern".data]
  | .vintage => ["vintage".data, "retro".data, "classic".data, "old-school".data]
  | .minimalist => ["minimalist".data, "simple".data, "clean".data, "basic".data]

/-- `weather_keywords` table of `_predict_weather_suitability`. -/
def weather_keywords : WeatherType → List (List Char)
  | .hot => ["summer".data, "hot".data, "breathable".data, "light".data, "cooling".data]
  | .warm => ["warm".data, "spring".data, "light".data]
  | .mild => ["mild".data, "transitional".data, "layering".data]
  | .cool => ["cool".data, "fall".data, "autumn".data, "light jacket".data]
  | .cold => ["winter".data, "cold".data, "thick".data, "insulated".data, "warm".data]
  | .rainy => ["waterproof".data, "rain".data, "water-resistant".data]
  | .snowy => ["snow".data, "insulated".data, "thermal".data, "heavy".data]

/-- `ClothingItem` dataclass of `clothing_ai.py`. -/
structure ClothingItem where
  name : List Char
  type : ClothingType
  style : Style
  weather_suitability : List WeatherType
  color : List Char
  season : List (List Char)
  formality_level : Int
  warmth_rating : Int
deriving DecidableEq, Repr

/-- Output record of `ClothingLabeler.label_clothing_from_text`
(the returned Python dict). -/
structure ClassificationResult where
  type : List Char
  styles : List Style
  weather_suitability : List WeatherType
  formality_level : Int
  warmth_rating : Int
  confidence : ℚ
deriving DecidableEq, Repr

/-- Exact Python float division of two machine integers, modelled over `ℚ`:
`none` is `ZeroDivisionError`. -/
def safeDivNat (m n : ℕ) : Option ℚ := if n = 0 then none else some ((m : ℚ) / (n : ℚ))

/-- `ClothingLabeler._predict_weather_suitability` (input already lower-cased). -/
def predict_weather_suitability (description : List Char) : List WeatherType :=
  let suitable := weatherOrder.filter fun w =>
    (weather_keywords w).any fun kw => isSubstr kw description
  if suitable.isEmpty then
    if ["hoodie".data, "sweater".data, "jacket".data].any
        (fun kw => isSubstr kw description) then [.cool, .cold]
    else if ["t-shirt".data, "shorts".data, "sandals".data].any
        (fun kw => isSubstr kw description) then [.hot, .warm]
    else [.mild]
  else suitable

/-- The formal-keyword table of `_predict_formality`. -/
def formalKeywords : List (List Char) :=
  ["formal".data, "business".data, "professional".data, "suit".data, "dress shirt".data]

/-- The casual-keyword table of `_predict_formality`. -/
def casualKeywords : List (List Char) :=
  ["casual".data, "relaxed".data, "hoodie".data, "jeans".data, "t-shirt".data]

/-- `formal_score` of `_predict_formality`: number of formal keywords occurring
as substrings. -/
def formalScoreOf (description : List Char) : Nat :=
  formalKeywords.countP fun kw => isSubstr kw description

/-- `casual_score` of `_predict_formality`. -/
def casualScoreOf (description : List Char) : Nat :=
  casualKeywords.countP fun kw => isSubstr kw description

/-- `ClothingLabeler._predict_formality` (input already lower-cased). -/
def predict_formality (description : List Char) : Int :=
  let f : Int := formalScoreOf description
  let c : Int := casualScoreOf description
  if f > c then min (7 + f) 10
  else if c > f then max (3 - c) 1
  else 5

/-- `ClothingLabeler._predict_warmth` (input already lower-cased). -/
def predict_warmth (description : List Char) : Int :=
  let warmKws : List (List Char) :=
    ["thick".data, "insulated".data, "wool".data, "fleece".data, "down".data, "winter".data]
  let coolKws : List (List Char) :=
    ["light".data, "breathable".data, "cotton".data, "linen".data, "summer".data]
  let w : Int := warmKws.countP fun kw => isSubstr kw description
  let k : Int := coolKws.countP fun kw => isSubstr kw description
  max 1 (min 10 (5 + w - k))

/-- `all_keywords` of `_calculate_confidence`: all type keywords followed by all
style keywords, in table order. -/
def allKeywords : List (List Char) :=
  (clothingTypeOrder.map clothing_keywords).flatten ++ (styleOrder.map style_keywords).flatten

/-- `ClothingLabeler._calculate_confidence` (input already lower-cased);
`none` would be a `ZeroDivisionError`, which the `max(1, ...)` guard prevents. -/
def calculate_confidence (description : List Char) : Option ℚ :=
  let total := (splitWords description).length
  let matched := ((splitWords description).filter fun w => decide (w ∈ allKeywords)).length
  (safeDivNat matched (max 1 total)).map fun q => min 1 (q * 2)

/-- `ClothingLabeler.label_clothing_from_text`. -/
def label_clothing_from_text (description : List Char) : Option ClassificationResult :=
  let dl := toLowerChars description
  let detectedType := clothingTypeOrder.find? fun t =>
    (clothing_keywords t).any fun kw => isSubstr kw dl
  let detectedStyles := styleOrder.filter fun s =>
    (style_keywords s).any fun kw => isSubstr kw dl
  match calculate_confidence dl with
  | none => none
  | some conf =>
    some { type := match detectedType with
                   | some t => typeValue t
                   | none => "unknown".data
           styles := detectedStyles
           weather_suitability := predict_weather_suitability dl
           formality_level := predict_formality dl
           warmth_rating := predict_warmth dl
           confidence := conf }

/-- One rule of the `vibe_rules` table of `_initialize_outfit_rules`; absent
dict keys are `none` (the absence-vs-zero distinction of the Python dict). -/
structure VibeRule where
  preferred_styles : Option (List Style)
  min_formality : Option Int
  max_formality : Option Int
  preferred_types : Option (List ClothingType)
  avoid_types : Option (List ClothingType)
  avoid_styles : Option (List Style)
deriving DecidableEq, Repr

/-- `outfit_rules["vibe_rules"].get(vibe, {})`: the rule looked up by the
lower-cased vibe string; an unknown vibe yields the empty rule (all `none`). -/
def vibe_rule_for (vibe : List Char) : VibeRule :=
  if vibe = "casual".data then
    { preferred_styles := some [.casual], min_formality := none, max_formality := some 6
      preferred_types := none, avoid_types := some [], avoid_styles := none }
  else if vibe = "professional".data then
    { preferred_styles := some [.formal], min_formality := some 7, max_formality := none
      preferred_types := some [.jacket, .pants, .t_shirt]
      avoid_types := some [.hoodie, .shorts], avoid_styles := none }
  else if vibe = "business".data then
    { preferred_styles := some [.formal], min_formality := some 8, max_formality := none
      preferred_types := some [.jacket, .pants, .t_shirt]
      avoid_types := some [.hoodie, .shorts, .jeans], avoid_styles := none }
  else if vibe = "trendy".data then
    { preferred_styles := some [.trendy], min_formality := some 5, max_formality := none
      preferred_types := none, avoid_types := none, avoid_styles := some [.vintage] }
  else if vibe = "sporty".data then
    { preferred_styles := some [.sporty, .casual], min_formality := none
      max_formality := some 4, preferred_types := none, avoid_types := none
      avoid_styles := none }
  else
    { preferred_styles := none, min_formality := none, max_formality := none
      preferred_types := none, avoid_types := none, avoid_styles := none }

/-- The per-item checks of the strict filtering loop of
`_filter_items_by_vibe` (`continue` means the item is dropped). -/
def vibe_keep (rules : VibeRule) (item : ClothingItem) : Bool :=
  (match rules.min_formality with
   | some m => decide (m ≤ item.formality_level)
   | none => true) &&
  (match rules.max_formality with
   | some m => decide (item.formality_level ≤ m)
   | none => true) &&
  (match rules.avoid_types with
   | some ts => !(decide (item.type ∈ ts))
   | none => true) &&
  (match rules.preferred_styles with
   | some ss => if 0 < ss.length then decide (item.style ∈ ss) else true
   | none => true) &&
  (match rules.avoid_styles with
   | some ss => !(decide (item.style ∈ ss))
   | none => true)

/-- `OutfitSuggestionEngine._filter_items_by_vibe`, including Fallback A
(professional/business relaxation to formality ≥ 6) and Fallback B
(return the input unfiltered). -/
def filter_items_by_vibe (items : List ClothingItem) (vibe : List Char) : List ClothingItem :=
  let rules := vibe_rule_for vibe
  let filtered := items.filter (vibe_keep rules)
  let filtered2 :=
    if filtered.isEmpty && (decide (vibe = "professional".data) || decide (vibe = "business".data)) then
      items.filter fun item => decide (6 ≤ item.formality_level)
    else filtered
  if filtered2.isEmpty then items else filtered2

/-- `OutfitSuggestionEngine._filter_items_by_weather`. -/
def filter_items_by_weather (wardrobe : List ClothingItem) (weather : WeatherType) :
    List ClothingItem :=
  wardrobe.filter fun item => decide (weather ∈ item.weather_suitability)

/-- The explicit outcome of all pseudo-random draws `_create_outfit_combination`
can make: two `random.choice([True, False])` coin flips and one pick index per
`random.choice(category)` call site. -/
structure Rng where
  dressCoin : Bool
  outerCoin : Bool
  iDress : Nat
  iTop : Nat
  iBottom : Nat
  iShoes : Nat
  iOuter : Nat
deriving DecidableEq, Repr

/-- `random.choice(xs)` under outcome index `i`: uniform over positions as `i`
ranges; `none` models the `IndexError` on an empty list. -/
def randChoice (xs : List ClothingItem) (i : Nat) : Option ClothingItem :=
  xs.get? (i % xs.length)

/-- `[item for item in xs if item.formality_level >= 7]`, the formal-subset
pattern used throughout `_create_outfit_combination`. -/
def formalSub (xs : List ClothingItem) : List ClothingItem :=
  xs.filter fun item => decide (7 ≤ item.formality_level)

/-- `item.type in [T_SHIRT, HOODIE, SWEATER]` (the `tops` category). -/
def isTopType (t : ClothingType) : Bool :=
  decide (t = .t_shirt ∨ t = .hoodie ∨ t = .sweater)

/-- `item.type in [JEANS, SHORTS, PANTS]` (the `bottoms` category). -/
def isBottomType (t : ClothingType) : Bool :=
  decide (t = .jeans ∨ t = .shorts ∨ t = .pants)

/-- `item.type in [SNEAKERS, BOOTS, SANDALS]` (the `shoes` category). -/
def isShoeType (t : ClothingType) : Bool :=
  decide (t = .sneakers ∨ t = .boots ∨ t = .sandals)

/-- `if formal_xs: choice(formal_xs) elif xs: choice(xs) else: pass` —
the guarded formal-first pick of the top/bottom branches. -/
def pickPreferFormal (xs : List ClothingItem) (i : Nat) : Option (List ClothingItem) :=
  let f := formalSub xs
  if !f.isEmpty then (randChoice f i).map fun x => [x]
  else if !xs.isEmpty then (randChoice xs i).map fun x => [x]
  else some []

/-- `if xs: choice(xs) else: pass` — the casual pick of the top/bottom branches. -/
def pickIfAny (xs : List ClothingItem) (i : Nat) : Option (List ClothingItem) :=
  if !xs.isEmpty then (randChoice xs i).map fun x => [x]
  else some []

/-- `if formal_xs: choice(formal_xs) else: choice(xs)` — the formal-first pick
of the shoes/outerwear branches (caller guarantees `xs` non-empty). -/
def pickFormalElseAll (xs : List ClothingItem) (i : Nat) : Option (List ClothingItem) :=
  let f := formalSub xs
  if !f.isEmpty then (randChoice f i).map fun x => [x]
  else (randChoice xs i).map fun x => [x]

/-- The dress-or-(top+bottom) block of `_create_outfit_combination`
(lines 409-433 of `clothing_ai.py`). -/
def top_dress_part (items : List ClothingItem) (rng : Rng) : Option (List ClothingItem) :=
  let tops := items.filter fun item => isTopType item.type
  let bottoms := items.filter fun item => isBottomType item.type
  let dresses := items.filter fun item => decide (item.type = .dress)
  let hasFormal := !(formalSub items).isEmpty
  if !dresses.isEmpty && (!hasFormal || rng.dressCoin) then
    (randChoice dresses rng.iDress).map fun d => [d]
  else do
    let t ← if hasFormal then pickPreferFormal tops rng.iTop else pickIfAny tops rng.iTop
    let b ← if hasFormal then pickPreferFormal bottoms rng.iBottom else pickIfAny bottoms rng.iBottom
    return t ++ b

/-- The shoes block of `_create_outfit_combination` (lines 436-445). -/
def shoes_part (items : List ClothingItem) (rng : Rng) : Option (List ClothingItem) :=
  let shoes := items.filter fun item => isShoeType item.type
  let hasFormal := !(formalSub items).isEmpty
  if !shoes.isEmpty then
    if hasFormal then pickFormalElseAll shoes rng.iShoes
    else (randChoice shoes rng.iShoes).map fun x => [x]
  else some []

/-- The outerwear block of `_create_outfit_combination` (lines 448-463). -/
def outer_part (items : List ClothingItem) (rng : Rng) : Option (List ClothingItem) :=
  let outerwear := items.filter fun item => decide (item.type = .jacket)
  let hasFormal := !(formalSub items).isEmpty
  if !outerwear.isEmpty then
    let weatherNeeds := outerwear.any fun item =>
      decide (item.type = .jacket) &&
      (decide (WeatherType.cold ∈ item.weather_suitability) ||
       decide (WeatherType.rainy ∈ item.weather_suitability))
    let formalNeeds := hasFormal &&
      (outerwear.any fun item => decide (7 ≤ item.formality_level))
    if weatherNeeds || formalNeeds || rng.outerCoin then
      if hasFormal then pickFormalElseAll outerwear rng.iOuter
      else (randChoice outerwear rng.iOuter).map fun x => [x]
    else some []
  else some []

/-- `OutfitSuggestionEngine._create_outfit_combination`: dress-or-top+bottom,
then shoes, then outerwear, appended in that order. -/
def create_outfit_combination (items : List ClothingItem) (rng : Rng) :
    Option (List ClothingItem) := do
  let a ← top_dress_part items rng
  let b ← shoes_part items rng
  let c ← outer_part items rng
  return a ++ b ++ c

/-- `WeatherType(weather.lower())` wrapped in `try/except` defaulting to
`MILD` (lines 323-326). -/
def parse_weather (weather : List Char) : WeatherType :=
  match weatherOrder.find? fun b => decide (weatherValue b = toLowerChars weather) with
  | some b => b
  | none => .mild

/-- `". ".join(reasons)` for a non-empty reason list. -/
def joinSep (sep : List Char) : List (List Char) → List Char
  | [] => []
  | [x] => x
  | x :: xs => x ++ sep ++ joinSep sep xs

/-- `OutfitSuggestionEngine._generate_outfit_reasoning`. -/
def generate_outfit_reasoning (outfit : List ClothingItem) (weather vibe : List Char) :
    List Char :=
  let reasons := outfit.map fun item =>
    item.name ++ " is perfect for ".data ++ weather ++ " weather".data
  let reasons := reasons ++ ["This combination matches your ".data ++ vibe ++ " vibe".data]
  joinSep ". ".data reasons ++ ".".data

/-- `OutfitSuggestionEngine._calculate_outfit_confidence`: fraction of chosen
items suitable for the requested band, `0.0` on an empty outfit; `none` would
be a `ZeroDivisionError`, unreachable thanks to the empty-outfit guard. -/
def calculate_outfit_confidence (outfit : List ClothingItem) (weather : WeatherType) :
    Option ℚ :=
  if outfit.isEmpty then some 0
  else safeDivNat (outfit.countP fun item => decide (weather ∈ item.weather_suitability))
    outfit.length

/-- The result dict of `OutfitSuggestionEngine.suggest_outfit`: the chosen
items (from which `outfit` names and `items_details` are projected), plus
reasoning, the raw weather and vibe strings, and the confidence. -/
structure OutfitResult where
  outfit : List ClothingItem
  reasoning : List Char
  weather : List Char
  vibe : List Char
  confidence : ℚ
deriving DecidableEq, Repr

/-- `OutfitSuggestionEngine.suggest_outfit`, parametrized by the engine's
wardrobe state and the outcome of the random draws; the `occasion` argument is
accepted and unused, exactly as in the source. -/
def suggest_outfit (wardrobe : List ClothingItem) (weather vibe occasion : List Char)
    (rng : Rng) : Option OutfitResult :=
  let _ := occasion
  let weatherEnum := parse_weather weather
  let suitable := filter_items_by_weather wardrobe weatherEnum
  let suitable2 := filter_items_by_vibe suitable (toLowerChars vibe)
  match create_outfit_combination suitable2 rng with
  | none => none
  | some outfit =>
    match calculate_outfit_confidence outfit weatherEnum with
    | none => none
    | some conf =>
      some { outfit := outfit
             reasoning := generate_outfit_reasoning outfit weather vibe
             weather := weather
             vibe := vibe
             confidence := conf }

/-- `OutfitSuggestionEngine._initialize_sample_wardrobe`. -/
def initialize_sample_wardrobe : List ClothingItem :=
  [ { name := "Basic White Tee".data, type := .t_shirt, style := .casual
      weather_suitability := [.hot, .warm], color := "white".data
      season := ["spring".data, "summer".data], formality_level := 3, warmth_rating := 2 },
    { name := "Gray Hoodie".data, type := .hoodie, style := .casual
      weather_suitability := [.cool, .cold], color := "gray".data
      season := ["fall".data, "winter".data], formality_level := 2, warmth_rating := 7 },
    { name := "Blue Jeans".data, type := .jeans, style := .casual
      weather_suitability := [.mild, .cool], color := "blue".data
      season := ["all".data], formality_level := 4, warmth_rating := 5 },
    { name := "Summer Dress".data, type := .dress, style := .casual
      weather_suitability := [.hot, .warm], color := "floral".data
      season := ["spring".data, "summer".data], formality_level := 6, warmth_rating := 2 },
    { name := "White Sneakers".data, type := .sneakers, style := .casual
      weather_suitability := [.mild, .warm, .hot], color := "white".data
      season := ["all".data], formality_level := 3, warmth_rating := 4 },
    { name := "Navy Blazer".data, type := .jacket, style := .formal
      weather_suitability := [.mild, .cool], color := "navy".data
      season := ["all".data], formality_level := 9, warmth_rating := 5 },
    { name := "White Dress Shirt".data, type := .t_shirt, style := .formal
      weather_suitability := [.mild, .cool, .warm], color := "white".data
      season := ["all".data], formality_level := 8, warmth_rating := 3 },
    { name := "Black Dress Pants".data, type := .pants, style := .formal
      weather_suitability := [.mild, .cool], color := "black".data
      season := ["all".data], formality_level := 8, warmth_rating := 4 },
    { name := "Black Oxford Shoes".data, type := .boots, style := .formal
      weather_suitability := [.mild, .cool], color := "black".data
      season := ["all".data], formality_level := 9, warmth_rating := 3 },
    { name := "Leather Jacket".data, type := .jacket, style := .trendy
      weather_suitability := [.cool], color := "black".data
      season := ["fall".data, "spring".data], formality_level := 7, warmth_rating := 6 },
    { name := "Skinny Black Jeans".data, type := .jeans, style := .trendy
      weather_suitability := [.mild, .cool], color := "black".data
      season := ["all".data], formality_level := 6, warmth_rating := 4 },
    { name := "Winter Boots".data, type := .boots, style := .casual
      weather_suitability := [.cold, .snowy], color := "brown".data
      season := ["winter".data], formality_level := 4, warmth_rating := 8 },
    { name := "Rain Jacket".data, type := .jacket, style := .casual
      weather_suitability := [.rainy, .cool], color := "navy".data
      season := ["all".data], formality_level := 4, warmth_rating := 6 },
    { name := "Cotton Shorts".data, type := .shorts, style := .casual
      weather_suitability := [.hot, .warm], color := "khaki".data
      season := ["summer".data], formality_level := 3, warmth_rating := 1 },
    { name := "Wool Sweater".data, type := .sweater, style := .casual
      weather_suitability := [.cold, .cool], color := "gray".data
      season := ["winter".data, "fall".data], formality_level := 5, warmth_rating := 8 },
    { name := "Waterproof Boots".data, type := .boots, style := .casual
      weather_suitability := [.rainy, .cold], color := "black".data
      season := ["all".data], formality_level := 4, warmth_rating := 7 } ]

/-- The weather-detection branch of `ClothingAI._fallback_text_parsing`
(input already lower-cased). -/
def fallback_text_weather (textLower : List Char) : List Char :=
  if ["hot".data, "warm".data, "summer".data, "sunny".data, "beach".data].any
      (fun kw => isSubstr kw textLower) then "hot".data
  else if ["cold".data, "winter".data, "chilly".data, "freezing".data, "snow".data].any
      (fun kw => isSubstr kw textLower) then "cold".data
  else if ["rain".data, "wet".data, "rainy".data, "drizzle".data, "storm".data].any
      (fun kw => isSubstr kw textLower) then "rainy".data
  else if ["cool".data, "fall".data, "autumn".data].any
      (fun kw => isSubstr kw textLower) then "cool".data
  else "mild".data

/-- The vibe-detection branch of `ClothingAI._fallback_text_parsing`
(input already lower-cased). -/
def fallback_text_vibe (textLower : List Char) : List Char :=
  if ["business".data, "meeting".data, "presentation".data, "office".data,
      "formal".data, "suit".data].any (fun kw => isSubstr kw textLower) then
    if ["business".data, "meeting".data, "presentation".data].any
        (fun kw => isSubstr kw textLower) then "business".data
    else "professional".data
  else if ["professional".data, "work".data].any
      (fun kw => isSubstr kw textLower) then "professional".data
  else if ["trendy".data, "stylish".data, "fashionable".data, "hip".data, "cool".data].any
      (fun kw => isSubstr kw textLower) then "trendy".data
  else if ["sporty".data, "gym".data, "workout".data, "exercise".data, "athletic".data].any
      (fun kw => isSubstr kw textLower) then "sporty".data
  else "casual".data

/-- `HuggingFaceIntegration._extract_occasion_from_text` (lower-cases its own
input; dict iteration order date → work → party → casual). -/
def extract_occasion_from_text (text : List Char) : List Char :=
  let tl := toLowerChars text
  if ["date".data, "romantic".data, "dinner".data, "restaurant".data].any
      (fun kw => isSubstr kw tl) then "date".data
  else if ["work".data, "office".data, "meeting".data, "presentation".data].any
      (fun kw => isSubstr kw tl) then "work".data
  else if ["party".data, "celebration".data, "event".data, "night out".data].any
      (fun kw => isSubstr kw tl) then "party".data
  else if ["everyday".data, "general".data, "normal".data, "regular".data].any
      (fun kw => isSubstr kw tl) then "casual".data
  else "general".data

/-- The spec's `parseRequest(text) -> {weather, vibe, occasion}`: the
weather/vibe detection of `ClothingAI._fallback_text_parsing` combined with
`HuggingFaceIntegration._extract_occasion_from_text` for the occasion field. -/
def parse_request (text : List Char) : List Char × List Char × List Char :=
  let tl := toLowerChars text
  (fallback_text_weather tl, fallback_text_vibe tl, extract_occasion_from_text text)

/-- A one-item demo wardrobe entry used to instantiate the theorems below on
concrete inputs. -/
def teeItem : ClothingItem :=
  { name := "tee".data, type := .t_shirt, style := .casual
    weather_suitability := [.hot, .warm], color := "white".data
    season := ["summer".data], formality_level := 3, warmth_rating := 2 }

/-- A fixed outcome of the random draws, used to instantiate the theorems
below on concrete inputs. -/
def rngZero : Rng :=
  { dressCoin := false, outerCoin := false, iDress := 0, iTop := 0, iBottom := 0
    iShoes := 0, iOuter := 0 }

/-- The result `suggest_outfit` produces on the one-item wardrobe `[teeItem]`
with weather "hot", vibe "casual" and the draw outcome `rngZero`. -/
def teeResult : OutfitResult :=
  { outfit := [teeItem]
    reasoning :=
      "tee is perfect for hot weather. This combination matches your casual vibe.".data
    weather := "hot".data
    vibe := "casual".data
    confidence := 1 }

/-! ## Helper lemmas about the engine's pick combinators -/

lemma randChoice_mem {xs : List ClothingItem} {i : Nat} {x : ClothingItem}
    (h : randChoice xs i = some x) : x ∈ xs :=
  List.get?_mem h

lemma randChoice_isSome {xs : List ClothingItem} (i : Nat) (h : xs ≠ []) :
    ∃ x, randChoice xs i = some x := by
  have hl : 0 < xs.length := List.length_pos.mpr h
  have hlt : i % xs.length < xs.length := Nat.mod_lt _ hl
  cases hx : xs.get? (i % xs.length) with
  | none => exact absurd (List.get?_eq_none.mp hx) (Nat.not_le.mpr hlt)
  | some x => exact ⟨x, hx⟩

lemma map_singleton_inv {xs : List ClothingItem} {i : Nat} {l : List ClothingItem}
    (h : (randChoice xs i).map (fun x => [x]) = some l) :
    ∃ x, x ∈ xs ∧ l = [x] := by
  cases hx : randChoice xs i with
  | none => rw [hx] at h; cases h
  | some x =>
    rw [hx] at h
    exact ⟨x, randChoice_mem hx, (Option.some.inj h).symm⟩

lemma not_isEmpty_ne {l : List ClothingItem} (h : (!l.isEmpty) = true) : l ≠ [] := by
  simpa using h

lemma formalSub_mem {xs : List ClothingItem} {x : ClothingItem} (hx : x ∈ formalSub xs) :
    x ∈ xs :=
  List.filter_subset' xs hx

lemma pickPreferFormal_spec {xs : List ClothingItem} {i : Nat} {l : List ClothingItem}
    (h : pickPreferFormal xs i = some l) :
    l.length ≤ 1 ∧ ∀ x ∈ l, x ∈ xs := by
  simp only [pickPreferFormal] at h
  split_ifs at h with h1 h2
  · obtain ⟨x, hx, rfl⟩ := map_singleton_inv h
    refine ⟨by simp, ?_⟩
    intro y hy; simp at hy; subst hy; exact formalSub_mem hx
  · obtain ⟨x, hx, rfl⟩ := map_singleton_inv h
    refine ⟨by simp, ?_⟩
    intro y hy; simp at hy; subst hy; exact hx
  · obtain rfl : [] = l := Option.some.inj h
    exact ⟨by simp, by simp⟩

lemma pickIfAny_spec {xs : List ClothingItem} {i : Nat} {l : List ClothingItem}
    (h : pickIfAny xs i = some l) :
    l.length ≤ 1 ∧ ∀ x ∈ l, x ∈ xs := by
  simp only [pickIfAny] at h
  split_ifs at h with h1
  · obtain ⟨x, hx, rfl⟩ := map_singleton_inv h
    refine ⟨by simp, ?_⟩
    intro y hy; simp at hy; subst hy; exact hx
  · obtain rfl : [] = l := Option.some.inj h
    exact ⟨by simp, by simp⟩

lemma pickFormalElseAll_spec {xs : List ClothingItem} {i : Nat} {l : List ClothingItem}
    (h : pickFormalElseAll xs i = some l) :
    l.length ≤ 1 ∧ ∀ x ∈ l, x ∈ xs := by
  simp only [pickFormalElseAll] at h
  split_ifs at h with h1
  · obtain ⟨x, hx, rfl⟩ := map_singleton_inv h
    refine ⟨by simp, ?_⟩
    intro y hy; simp at hy; subst hy; exact formalSub_mem hx
  · obtain ⟨x, hx, rfl⟩ := map_singleton_inv h
    refine ⟨by simp, ?_⟩
    intro y hy; simp at hy; subst hy; exact hx

lemma ifPick_spec {c : Prop} [Decidable c] {xs : List ClothingItem} {i : Nat}
    {l : List ClothingItem}
    (h : (if c then pickPreferFormal xs i else pickIfAny xs i) = some l) :
    l.length ≤ 1 ∧ ∀ x ∈ l, x ∈ xs := by
  split_ifs at h
  · exact pickPreferFormal_spec h
  · exact pickIfAny_spec h

lemma pickPreferFormal_isSome (xs : List ClothingItem) (i : Nat) :
    ∃ l, pickPreferFormal xs i = some l := by
  simp only [pickPreferFormal]
  split_ifs with h1 h2
  · obtain ⟨x, hx⟩ := randChoice_isSome i (not_isEmpty_ne h1)
    exact ⟨[x], by rw [hx]; rfl⟩
  · obtain ⟨x, hx⟩ := randChoice_isSome i (not_isEmpty_ne h2)
    exact ⟨[x], by rw [hx]; rfl⟩
  · exact ⟨[], rfl⟩

lemma pickIfAny_isSome (xs : List ClothingItem) (i : Nat) :
    ∃ l, pickIfAny xs i = some l := by
  simp only [pickIfAny]
  split_ifs with h1
  · obtain ⟨x, hx⟩ := randChoice_isSome i (not_isEmpty_ne h1)
    exact ⟨[x], by rw [hx]; rfl⟩
  · exact ⟨[], rfl⟩

lemma pickFormalElseAll_isSome (xs : List ClothingItem) (i : Nat) (hne : xs ≠ []) :
    ∃ l, pickFormalElseAll xs i = some l := by
  simp only [pickFormalElseAll]
  split_ifs with h1
  · obtain ⟨x, hx⟩ := randChoice_isSome i (not_isEmpty_ne h1)
    exact ⟨[x], by rw [hx]; rfl⟩
  · obtain ⟨x, hx⟩ := randChoice_isSome i hne
    exact ⟨[x], by rw [hx]; rfl⟩

lemma ifPick_isSome (c : Prop) [Decidable c] (xs : List ClothingItem) (i : Nat) :
    ∃ l, (if c then pickPreferFormal xs i else pickIfAny xs i) = some l := by
  split_ifs
  · exact pickPreferFormal_isSome xs i
  · exact pickIfAny_isSome xs i

/-! ## Shape and totality of the three outfit-assembly blocks -/

lemma bind_append_inv {p q : Option (List ClothingItem)} {l : List ClothingItem}
    (h : (do let t ← p; let b ← q; pure (t ++ b)) = some l) :
    ∃ t b, p = some t ∧ q = some b ∧ l = t ++ b := by
  cases hp : p with
  | none => rw [hp] at h; cases h
  | some t =>
    cases hq : q with
    | none => rw [hp, hq] at h; cases h
    | some b =>
      rw [hp, hq] at h
      exact ⟨t, b, rfl, rfl, (Option.some.inj h).symm⟩

lemma bind_append_isSome {p q : Option (List ClothingItem)}
    (hp : ∃ t, p = some t) (hq : ∃ b, q = some b) :
    ∃ l, (do let t ← p; let b ← q; pure (t ++ b)) = some l := by
  obtain ⟨t, ht⟩ := hp
  obtain ⟨b, hb⟩ := hq
  exact ⟨t ++ b, by rw [ht, hb]; rfl⟩

lemma tb_append_spec {items t b : List ClothingItem}
    (htt : ∀ x ∈ t, x ∈ items ∧ isTopType x.type = true) (hlt : t.length ≤ 1)
    (hbb : ∀ x ∈ b, x ∈ items ∧ isBottomType x.type = true) (hlb : b.length ≤ 1) :
    (∀ x ∈ t ++ b, x ∈ items) ∧
    ((∀ x ∈ t ++ b, isTopType x.type = true ∨ isBottomType x.type = true) ∧
     (t ++ b).countP (fun x => isTopType x.type) ≤ 1 ∧
     (t ++ b).countP (fun x => isBottomType x.type) ≤ 1) := by
  refine ⟨?_, ?_, ?_, ?_⟩
  · intro x hx
    rcases List.mem_append.mp hx with hx | hx
    · exact (htt x hx).1
    · exact (hbb x hx).1
  · intro x hx
    rcases List.mem_append.mp hx with hx | hx
    · exact Or.inl (htt x hx).2
    · exact Or.inr (hbb x hx).2
  · rw [List.countP_append]
    have h0 : b.countP (fun x => isTopType x.type) = 0 := by
      rw [List.countP_eq_zero]
      intro x hx
      have hb2 := (hbb x hx).2
      have hdisj : ∀ ty : ClothingType, isBottomType ty = true → isTopType ty = false := by
        decide
      simp [hdisj _ hb2]
    rw [h0]
    simpa using le_trans (List.countP_le_length _ (l := t)) hlt
  · rw [List.countP_append]
    have h0 : t.countP (fun x => isBottomType x.type) = 0 := by
      rw [List.countP_eq_zero]
      intro x hx
      have ht2 := (htt x hx).2
      have hdisj : ∀ ty : ClothingType, isTopType ty = true → isBottomType ty = false := by
        decide
      simp [hdisj _ ht2]
    rw [h0]
    simpa using le_trans (List.countP_le_length _ (l := b)) hlb

lemma top_dress_part_spec {items : List ClothingItem} {rng : Rng} {l : List ClothingItem}
    (h : top_dress_part items rng = some l) :
    (∀ x ∈ l, x ∈ items) ∧
    ((∃ d, l = [d] ∧ d.type = ClothingType.dress) ∨
     ((∀ x ∈ l, isTopType x.type = true ∨ isBottomType x.type = true) ∧
      l.countP (fun x => isTopType x.type) ≤ 1 ∧
      l.countP (fun x => isBottomType x.type) ≤ 1)) := by
  simp only [top_dress_part] at h
  split_ifs at h with h1 h2
  · obtain ⟨d, hd, rfl⟩ := map_singleton_inv h
    obtain ⟨hdi, hdt⟩ := List.mem_filter.mp hd
    refine ⟨?_, Or.inl ⟨d, rfl, by simpa using hdt⟩⟩
    intro x hx; simp at hx; subst hx; exact hdi
  · obtain ⟨t, b, ht, hb, rfl⟩ := bind_append_inv h
    obtain ⟨hlt, hmt⟩ := pickPreferFormal_spec ht
    obtain ⟨hlb, hmb⟩ := pickPreferFormal_spec hb
    obtain ⟨hm, hsh⟩ := tb_append_spec
      (fun x hx => List.mem_filter.mp (hmt x hx)) hlt
      (fun x hx => List.mem_filter.mp (hmb x hx)) hlb
    exact ⟨hm, Or.inr hsh⟩
  · obtain ⟨t, b, ht, hb, rfl⟩ := bind_append_inv h
    obtain ⟨hlt, hmt⟩ := pickIfAny_spec ht
    obtain ⟨hlb, hmb⟩ := pickIfAny_spec hb
    obtain ⟨hm, hsh⟩ := tb_append_spec
      (fun x hx => List.mem_filter.mp (hmt x hx)) hlt
      (fun x hx => List.mem_filter.mp (hmb x hx)) hlb
    exact ⟨hm, Or.inr hsh⟩

lemma shoes_part_spec {items : List ClothingItem} {rng : Rng} {l : List ClothingItem}
    (h : shoes_part items rng = some l) :
    (∀ x ∈ l, x ∈ items ∧ isShoeType x.type = true) ∧ l.length ≤ 1 := by
  simp only [shoes_part] at h
  split_ifs at h with h1 h2
  · obtain ⟨hl, hm⟩ := pickFormalElseAll_spec h
    refine ⟨fun x hx => List.mem_filter.mp (hm x hx), hl⟩
  · obtain ⟨x, hx, rfl⟩ := map_singleton_inv h
    refine ⟨?_, by simp⟩
    intro y hy; simp at hy; subst hy
    exact List.mem_filter.mp hx
  · obtain rfl : [] = l := Option.some.inj h
    exact ⟨by simp, by simp⟩

lemma outer_part_spec {items : List ClothingItem} {rng : Rng} {l : List ClothingItem}
    (h : outer_part items rng = some l) :
    (∀ x ∈ l, x ∈ items ∧ x.type = ClothingType.jacket) ∧ l.length ≤ 1 := by
  simp only [outer_part] at h
  split_ifs at h with h1 h2 h3
  · obtain ⟨hl, hm⟩ := pickFormalElseAll_spec h
    refine ⟨?_, hl⟩
    intro x hx
    obtain ⟨hxi, hxt⟩ := List.mem_filter.mp (hm x hx)
    exact ⟨hxi, by simpa using hxt⟩
  · obtain ⟨x, hx, rfl⟩ := map_singleton_inv h
    refine ⟨?_, by simp⟩
    intro y hy; simp at hy; subst hy
    obtain ⟨hxi, hxt⟩ := List.mem_filter.mp hx
    exact ⟨hxi, by simpa using hxt⟩
  · obtain rfl : [] = l := Option.some.inj h
    exact ⟨by simp, by simp⟩
  · obtain rfl : [] = l := Option.some.inj h
    exact ⟨by simp, by simp⟩

lemma top_dress_part_isSome (items : List ClothingItem) (rng : Rng) :
    ∃ l, top_dress_part items rng = some l := by
  simp only [top_dress_part]
  split_ifs with h1 h2
  · have hne : (items.filter fun item => decide (item.type = ClothingType.dress)) ≠ [] :=
      not_isEmpty_ne (Bool.and_elim_left h1)
    obtain ⟨x, hx⟩ := randChoice_isSome rng.iDress hne
    exact ⟨[x], by rw [hx]; rfl⟩
  · exact bind_append_isSome (pickPreferFormal_isSome _ _) (pickPreferFormal_isSome _ _)
  · exact bind_append_isSome (pickIfAny_isSome _ _) (pickIfAny_isSome _ _)

lemma shoes_part_isSome (items : List ClothingItem) (rng : Rng) :
    ∃ l, shoes_part items rng = some l := by
  simp only [shoes_part]
  split_ifs with h1 h2
  · exact pickFormalElseAll_isSome _ rng.iShoes (not_isEmpty_ne h1)
  · obtain ⟨x, hx⟩ := randChoice_isSome rng.iShoes (not_isEmpty_ne h1)
    exact ⟨[x], by rw [hx]; rfl⟩
  · exact ⟨[], rfl⟩

lemma outer_part_isSome (items : List ClothingItem) (rng : Rng) :
    ∃ l, outer_part items rng = some l := by
  simp only [outer_part]
  split_ifs with h1 h2 h3
  · exact pickFormalElseAll_isSome _ rng.iOuter (not_isEmpty_ne h1)
  · obtain ⟨x, hx⟩ := randChoice_isSome rng.iOuter (not_isEmpty_ne h1)
    exact ⟨[x], by rw [hx]; rfl⟩
  · exact ⟨[], rfl⟩
  · exact ⟨[], rfl⟩

lemma create_outfit_combination_spec {items : List ClothingItem} {rng : Rng}
    {of : List ClothingItem}
    (h : create_outfit_combination items rng = some of) :
    (∀ x ∈ of, x ∈ items) ∧
    ∃ a b c, of = a ++ b ++ c ∧
      ((∃ d, a = [d] ∧ d.type = ClothingType.dress) ∨
       ((∀ x ∈ a, isTopType x.type = true ∨ isBottomType x.type = true) ∧
        a.countP (fun x => isTopType x.type) ≤ 1 ∧
        a.countP (fun x => isBottomType x.type) ≤ 1)) ∧
      ((∀ x ∈ b, x ∈ items ∧ isShoeType x.type = true) ∧ b.length ≤ 1) ∧
      ((∀ x ∈ c, x ∈ items ∧ x.type = ClothingType.jacket) ∧ c.length ≤ 1) := by
  simp only [create_outfit_combination] at h
  cases ha : top_dress_part items rng with
  | none => rw [ha] at h; cases h
  | some a =>
    cases hb : shoes_part items rng with
    | none => rw [ha, hb] at h; cases h
    | some b =>
      cases hc : outer_part items rng with
      | none => rw [ha, hb, hc] at h; cases h
      | some c =>
        rw [ha, hb, hc] at h
        obtain rfl : a ++ b ++ c = of := Option.some.inj h
        obtain ⟨hams, hashape⟩ := top_dress_part_spec ha
        obtain ⟨hbs, hbl⟩ := shoes_part_spec hb
        obtain ⟨hcs, hcl⟩ := outer_part_spec hc
        refine ⟨?_, a, b, c, rfl, hashape, ⟨hbs, hbl⟩, ⟨hcs, hcl⟩⟩
        intro x hx
        rcases List.mem_append.mp hx with hx | hx
        · rcases List.mem_append.mp hx with hx | hx
          · exact hams x hx
          · exact (hbs x hx).1
        · exact (hcs x hx).1

lemma create_outfit_combination_isSome (items : List ClothingItem) (rng : Rng) :
    ∃ of, create_outfit_combination items rng = some of := by
  obtain ⟨a, ha⟩ := top_dress_part_isSome items rng
  obtain ⟨b, hb⟩ := shoes_part_isSome items rng
  obtain ⟨c, hc⟩ := outer_part_isSome items rng
  exact ⟨a ++ b ++ c, by simp only [create_outfit_combination]; rw [ha, hb, hc]; rfl⟩

/-! ## Filtering, confidence and end-to-end totality lemmas -/

lemma filter_items_by_vibe_subset {items : List ClothingItem} {vibe : List Char} :
    ∀ x ∈ filter_items_by_vibe items vibe, x ∈ items := by
  intro x hx
  simp only [filter_items_by_vibe] at hx
  split_ifs at hx
  · exact hx
  · exact List.filter_subset' items hx
  · exact hx
  · exact List.filter_subset' items hx

lemma filter_items_by_weather_mem {wardrobe : List ClothingItem} {weather : WeatherType}
    {x : ClothingItem} (hx : x ∈ filter_items_by_weather wardrobe weather) :
    x ∈ wardrobe ∧ weather ∈ x.weather_suitability := by
  obtain ⟨h1, h2⟩ := List.mem_filter.mp hx
  exact ⟨h1, by simpa using h2⟩

lemma calculate_outfit_confidence_isSome (outfit : List ClothingItem)
    (weather : WeatherType) :
    ∃ q, calculate_outfit_confidence outfit weather = some q := by
  simp only [calculate_outfit_confidence]
  split_ifs with h1
  · exact ⟨0, rfl⟩
  · have hne : outfit ≠ [] := by simpa [List.isEmpty_iff] using h1
    have hlen : outfit.length ≠ 0 := by
      simpa using List.length_pos.mpr hne |>.ne'
    simp only [safeDivNat, if_neg hlen]
    exact ⟨_, rfl⟩

lemma calculate_confidence_isSome (description : List Char) :
    ∃ q, calculate_confidence description = some q := by
  simp only [calculate_confidence, safeDivNat]
  have hne : max 1 (splitWords description).length ≠ 0 := by positivity
  simp only [if_neg hne]
  exact ⟨_, rfl⟩

lemma label_clothing_from_text_isSome (description : List Char) :
    ∃ r, label_clothing_from_text description = some r := by
  simp only [label_clothing_from_text]
  obtain ⟨q, hq⟩ := calculate_confidence_isSome (toLowerChars description)
  rw [hq]
  exact ⟨_, rfl⟩

lemma suggest_outfit_inv {wardrobe : List ClothingItem} {w v o : List Char} {rng : Rng}
    {res : OutfitResult} (h : suggest_outfit wardrobe w v o rng = some res) :
    create_outfit_combination
        (filter_items_by_vibe (filter_items_by_weather wardrobe (parse_weather w))
          (toLowerChars v)) rng = some res.outfit ∧
    calculate_outfit_confidence res.outfit (parse_weather w) = some res.confidence := by
  simp only [suggest_outfit] at h
  cases hc : create_outfit_combination
      (filter_items_by_vibe (filter_items_by_weather wardrobe (parse_weather w))
        (toLowerChars v)) rng with
  | none => rw [hc] at h; cases h
  | some outfit =>
    rw [hc] at h
    dsimp only at h
    cases hq : calculate_outfit_confidence outfit (parse_weather w) with
    | none => rw [hq] at h; cases h
    | some conf =>
      rw [hq] at h
      obtain rfl := Option.some.inj h
      exact ⟨rfl, hq⟩

lemma suggest_outfit_isSome (wardrobe : List ClothingItem) (w v o : List Char)
    (rng : Rng) : (suggest_outfit wardrobe w v o rng).isSome = true := by
  simp only [suggest_outfit]
  obtain ⟨outfit, hc⟩ := create_outfit_combination_isSome
    (filter_items_by_vibe (filter_items_by_weather wardrobe (parse_weather w))
      (toLowerChars v)) rng
  rw [hc]
  dsimp only
  obtain ⟨q, hq⟩ := calculate_outfit_confidence_isSome outfit (parse_weather w)
  rw [hq]
  rfl

lemma suggest_outfit_suits {wardrobe : List ClothingItem} {w v o : List Char} {rng : Rng}
    {res : OutfitResult} (h : suggest_outfit wardrobe w v o rng = some res) :
    ∀ x ∈ res.outfit, parse_weather w ∈ x.weather_suitability := by
  obtain ⟨hc, _⟩ := suggest_outfit_inv h
  have hmem := (create_outfit_combination_spec hc).1
  intro x hx
  exact (filter_items_by_weather_mem (filter_items_by_vibe_subset x (hmem x hx))).2

/-! ## Words produced by `splitWords` are substrings of the original text -/

lemma splitWordsAux_infix : ∀ (cs acc w : List Char),
    w ∈ splitWordsAux cs acc → w <:+: (acc.reverse ++ cs) := by
  intro cs
  induction cs with
  | nil =>
    intro acc w hw
    simp only [splitWordsAux] at hw
    split_ifs at hw with h
    · cases hw
    · simp only [List.mem_singleton] at hw
      subst hw
      simp only [List.append_nil]
      exact List.infix_refl acc.reverse
  | cons c cs ih =>
    intro acc w hw
    simp only [splitWordsAux] at hw
    split_ifs at hw with h1 h2
    · have hacc : acc = [] := List.isEmpty_iff.mp h2
      subst hacc
      have hcs : w <:+: cs := by simpa using ih [] w hw
      simpa using List.infix_cons hcs
    · rcases List.mem_cons.mp hw with rfl | hw
      · exact (List.prefix_append _ _).isInfix
      · have hcs : w <:+: cs := by simpa using ih [] w hw
        exact (List.infix_cons hcs (a := c)).trans
          (List.suffix_append acc.reverse (c :: cs)).isInfix
    · have := ih (c :: acc) w hw
      simpa [List.reverse_cons, List.append_assoc] using this

lemma isSubstr_of_infix {w s : List Char} (h : w <:+: s) : isSubstr w s = true := by
  obtain ⟨pre, suf, hps⟩ := h
  simp only [isSubstr, List.any_eq_true]
  refine ⟨pre.length, List.mem_range.mpr ?_, ?_⟩
  · rw [← hps]
    simp [List.length_append]
    omega
  · rw [← hps, List.append_assoc, List.drop_left]
    exact List.isPrefixOf_iff_prefix.mpr (List.prefix_append _ _)

lemma isSubstr_of_contains_exact_word {text kw : List Char}
    (h : contains_exact_word text kw = true) : isSubstr kw (toLowerChars text) = true := by
  have hmem : kw ∈ splitWords (toLowerChars text) := of_decide_eq_true h
  have hinf := splitWordsAux_infix (toLowerChars text) [] kw hmem
  exact isSubstr_of_infix (by simpa using hinf)

lemma mem_clothingTypeOrder (t : ClothingType) : t ∈ clothingTypeOrder := by
  cases t <;> simp [clothingTypeOrder]

lemma typeValue_ne_unknown : ∀ t : ClothingType, typeValue t ≠ "unknown".data := by
  decide

/-! ## Category disjointness and outfit shape -/

lemma shoe_not_others : ∀ ty : ClothingType, isShoeType ty = true →
    (isTopType ty = false ∧ isBottomType ty = false ∧
     ty ≠ ClothingType.dress ∧ ty ≠ ClothingType.jacket) := by
  decide

lemma top_not_others : ∀ ty : ClothingType, isTopType ty = true →
    (isBottomType ty = false ∧ isShoeType ty = false ∧
     ty ≠ ClothingType.dress ∧ ty ≠ ClothingType.jacket) := by
  decide

lemma bottom_not_others : ∀ ty : ClothingType, isBottomType ty = true →
    (isTopType ty = false ∧ isShoeType ty = false ∧
     ty ≠ ClothingType.dress ∧ ty ≠ ClothingType.jacket) := by
  decide

lemma outfit_shape {items : List ClothingItem} {rng : Rng} {of : List ClothingItem}
    (h : create_outfit_combination items rng = some of) :
    ¬((∃ x ∈ of, x.type = ClothingType.dress) ∧ (∃ x ∈ of, isTopType x.type = true)) ∧
    of.countP (fun x => isTopType x.type || decide (x.type = ClothingType.dress)) ≤ 1 ∧
    of.countP (fun x => isBottomType x.type) ≤ 1 ∧
    ((∃ x ∈ of, x.type = ClothingType.dress) →
      of.countP (fun x => isBottomType x.type) = 0) ∧
    of.countP (fun x => isShoeType x.type) ≤ 1 ∧
    of.countP (fun x => decide (x.type = ClothingType.jacket)) ≤ 1 := by
  obtain ⟨-, a, b, c, rfl, hA, ⟨hbm, hbl⟩, ⟨hcm, hcl⟩⟩ := create_outfit_combination_spec h
  have hbTD : b.countP
      (fun x => isTopType x.type || decide (x.type = ClothingType.dress)) = 0 := by
    rw [List.countP_eq_zero]
    intro x hx
    obtain ⟨h1, h2, h3, h4⟩ := shoe_not_others _ (hbm x hx).2
    simp [h1, h3]
  have hbB0 : b.countP (fun x => isBottomType x.type) = 0 := by
    rw [List.countP_eq_zero]
    intro x hx
    obtain ⟨h1, h2, h3, h4⟩ := shoe_not_others _ (hbm x hx).2
    simp [h2]
  have hbJ0 : b.countP (fun x => decide (x.type = ClothingType.jacket)) = 0 := by
    rw [List.countP_eq_zero]
    intro x hx
    obtain ⟨h1, h2, h3, h4⟩ := shoe_not_others _ (hbm x hx).2
    simp [h4]
  have hbS1 : b.countP (fun x => isShoeType x.type) ≤ 1 :=
    le_trans (List.countP_le_length _) hbl
  have hcTD : c.countP
      (fun x => isTopType x.type || decide (x.type = ClothingType.dress)) = 0 := by
    rw [List.countP_eq_zero]
    intro x hx
    rw [(hcm x hx).2]
    decide
  have hcB0 : c.countP (fun x => isBottomType x.type) = 0 := by
    rw [List.countP_eq_zero]
    intro x hx
    rw [(hcm x hx).2]
    decide
  have hcS0 : c.countP (fun x => isShoeType x.type) = 0 := by
    rw [List.countP_eq_zero]
    intro x hx
    rw [(hcm x hx).2]
    decide
  have hcJ1 : c.countP (fun x => decide (x.type = ClothingType.jacket)) ≤ 1 :=
    le_trans (List.countP_le_length _) hcl
  rcases hA with ⟨d, rfl, hd⟩ | ⟨hmem, haT, haB⟩
  · have haB0 : ([d]).countP (fun x => isBottomType x.type) = 0 := by
      rw [List.countP_eq_zero]
      intro x hx
      simp only [List.mem_singleton] at hx
      subst hx
      rw [show isBottomType x.type = false by rw [hd]; decide]
      simp
    have haS0 : ([d]).countP (fun x => isShoeType x.type) = 0 := by
      rw [List.countP_eq_zero]
      intro x hx
      simp only [List.mem_singleton] at hx
      subst hx
      rw [show isShoeType x.type = false by rw [hd]; decide]
      simp
    have haJ0 : ([d]).countP (fun x => decide (x.type = ClothingType.jacket)) = 0 := by
      rw [List.countP_eq_zero]
      intro x hx
      simp only [List.mem_singleton] at hx
      subst hx
      rw [hd]
      decide
    refine ⟨?_, ?_, ?_, ?_, ?_, ?_⟩
    · rintro ⟨-, ⟨y, hy, hyt⟩⟩
      rcases List.mem_append.mp hy with hy | hy
      · rcases List.mem_append.mp hy with hy | hy
        · simp only [List.mem_singleton] at hy
          subst hy
          rw [hd] at hyt
          exact absurd hyt (by decide)
        · exact absurd hyt (by simp [(shoe_not_others _ (hbm y hy).2).1])
      · rw [(hcm y hy).2] at hyt
        exact absurd hyt (by decide)
    · rw [List.countP_append, List.countP_append, hbTD, hcTD]
      have hle : ([d]).countP
          (fun x => isTopType x.type || decide (x.type = ClothingType.dress)) ≤ 1 := by
        simpa using List.countP_le_length
          (fun x => isTopType x.type || decide (x.type = ClothingType.dress)) (l := [d])
      omega
    · rw [List.countP_append, List.countP_append, haB0, hbB0, hcB0]
      omega
    · intro _
      rw [List.countP_append, List.countP_append, haB0, hbB0, hcB0]
    · rw [List.countP_append, List.countP_append, haS0, hcS0]
      omega
    · rw [List.countP_append, List.countP_append, haJ0, hbJ0]
      simpa using hcJ1
  · have hnoDressA : ∀ x ∈ a, x.type ≠ ClothingType.dress := by
      intro x hx
      rcases hmem x hx with ht | hb2
      · exact (top_not_others _ ht).2.2.1
      · exact (bottom_not_others _ hb2).2.2.1
    have haTD : a.countP
        (fun x => isTopType x.type || decide (x.type = ClothingType.dress)) =
        a.countP (fun x => isTopType x.type) := by
      apply List.countP_congr
      intro x hx
      simp [hnoDressA x hx]
    have haS0 : a.countP (fun x => isShoeType x.type) = 0 := by
      rw [List.countP_eq_zero]
      intro x hx
      rcases hmem x hx with ht | hb2
      · simp [(top_not_others _ ht).2.1]
      · simp [(bottom_not_others _ hb2).2.1]
    have haJ0 : a.countP (fun x => decide (x.type = ClothingType.jacket)) = 0 := by
      rw [List.countP_eq_zero]
      intro x hx
      rcases hmem x hx with ht | hb2
      · simp [(top_not_others _ ht).2.2.2]
      · simp [(bottom_not_others _ hb2).2.2.2]
    have hnoDress : ∀ x ∈ a ++ b ++ c, x.type ≠ ClothingType.dress := by
      intro x hx
      rcases List.mem_append.mp hx with hx | hx
      · rcases List.mem_append.mp hx with hx | hx
        · exact hnoDressA x hx
        · exact (shoe_not_others _ (hbm x hx).2).2.2.1
      · rw [(hcm x hx).2]; decide
    refine ⟨?_, ?_, ?_, ?_, ?_, ?_⟩
    · rintro ⟨⟨x, hx, hxd⟩, -⟩
      exact hnoDress x hx hxd
    · rw [List.countP_append, List.countP_append, haTD, hbTD, hcTD]
      simpa using haT
    · rw [List.countP_append, List.countP_append, hbB0, hcB0]
      simpa using haB
    · rintro ⟨x, hx, hxd⟩
      exact absurd hxd (hnoDress x hx)
    · rw [List.countP_append, List.countP_append, haS0, hcS0]
      simpa using hbS1
    · rw [List.countP_append, List.countP_append, haJ0, hbJ0]
      simpa using hcJ1

/-! ## Concrete evaluation of `suggest_outfit` on the one-item wardrobe -/

lemma suggest_outfit_tee :
    suggest_outfit [teeItem] "hot".data "casual".data "general".data rngZero =
      some teeResult := by
  have hpw : parse_weather "hot".data = WeatherType.hot := by decide
  have hfil : filter_items_by_vibe (filter_items_by_weather [teeItem] WeatherType.hot)
      (toLowerChars "casual".data) = [teeItem] := by decide
  have hcreate : create_outfit_combination [teeItem] rngZero = some [teeItem] := by decide
  have hconf : calculate_outfit_confidence [teeItem] WeatherType.hot = some 1 := by
    have hcnt : ([teeItem].countP fun item =>
        decide (WeatherType.hot ∈ item.weather_suitability)) = 1 := by decide
    simp only [calculate_outfit_confidence]
    rw [if_neg (by decide)]
    rw [hcnt]
    simp [safeDivNat]
  simp only [suggest_outfit, hpw, hfil, hcreate, hconf]
  simp only [teeResult, Option.some.injEq, OutfitResult.mk.injEq]
  refine ⟨trivial, ?_, trivial, trivial, trivial⟩
  decide

/-! ## Claim theorems -/

/-- C1: for every list of weather-filtered candidate items and every vibe
string, `_filter_items_by_vibe` returns the strict-rule filtering when it is
non-empty; if the strict rule empties the set and the vibe is "professional"
or "business", it keeps exactly the input items with `formality_level ≥ 6`
(Fallback A); if the result is still empty (or the vibe produced no match),
it returns the full input set unchanged (Fallback B).  In particular the
result is non-empty whenever the input is non-empty. -/
theorem vibe_filter_fallbacks (items : List ClothingItem) (vibe : List Char) :
    (filter_items_by_vibe items vibe =
      if items.filter (vibe_keep (vibe_rule_for vibe)) ≠ [] then
        items.filter (vibe_keep (vibe_rule_for vibe))
      else if (vibe = "professional".data ∨ vibe = "business".data) ∧
          items.filter (fun item => decide (6 ≤ item.formality_level)) ≠ [] then
        items.filter (fun item => decide (6 ≤ item.formality_level))
      else items) ∧
    (items ≠ [] → filter_items_by_vibe items vibe ≠ []) := by
  have hchar : filter_items_by_vibe items vibe =
      if items.filter (vibe_keep (vibe_rule_for vibe)) ≠ [] then
        items.filter (vibe_keep (vibe_rule_for vibe))
      else if (vibe = "professional".data ∨ vibe = "business".data) ∧
          items.filter (fun item => decide (6 ≤ item.formality_level)) ≠ [] then
        items.filter (fun item => decide (6 ≤ item.formality_level))
      else items := by
    simp only [filter_items_by_vibe]
    split_ifs <;> first
      | rfl
      | simp_all [List.isEmpty_iff]
  refine ⟨hchar, ?_⟩
  intro hne
  rw [hchar]
  split_ifs with hA hB
  · exact hA
  · exact hB.2
  · exact hne

/-- Witness for C1: on a concrete non-empty input and the "casual" vibe the
vibe-filtering step returns a non-empty set. -/
theorem vibe_filter_fallbacks_witness :
    filter_items_by_vibe [teeItem] "casual".data ≠ [] :=
  (vibe_filter_fallbacks [teeItem] "casual".data).2 (by decide)

/-- C4: the natural-language request parser applied to
"What should I wear for a professional business meeting?" yields weather
"mild", vibe "business", and occasion "work". -/
theorem parse_request_business_meeting :
    parse_request "What should I wear for a professional business meeting?".data =
      ("mild".data, "business".data, "work".data) := by
  decide

/-- C5 counterexample: the description "hoodie dress" contains the exact word
"dress" — a type keyword of `ClothingType.dress` — yet `classify` detects
type "hoodie", because the `HOODIE` entry precedes `DRESS` in the keyword
table's first-match scan.  Hence "classify returns that GarmentType" is false
as universally stated. -/
theorem classify_first_match_counterexample :
    "dress".data ∈ clothing_keywords ClothingType.dress ∧
    contains_exact_word "hoodie dress".data "dress".data = true ∧
    (label_clothing_from_text "hoodie dress".data).map (fun r => r.type) =
      some "hoodie".data ∧
    "hoodie".data ≠ typeValue ClothingType.dress := by
  refine ⟨?_, ?_, ?_, ?_⟩ <;> decide

/-- C5 (amended): for every description containing, as an exact word, a type
keyword of some GarmentType, `classify` detects a type — the first
GarmentType in declared order whose keyword list has a substring match — and
in particular never returns "unknown". -/
theorem classify_exact_keyword_detects_type
    (d : List Char) (t : ClothingType) (kw : List Char)
    (hkw : kw ∈ clothing_keywords t)
    (hword : contains_exact_word d kw = true) :
    ∃ r t', label_clothing_from_text d = some r ∧
      r.type = typeValue t' ∧
      ((clothing_keywords t').any fun k => isSubstr k (toLowerChars d)) = true ∧
      r.type ≠ "unknown".data := by
  have hsub : isSubstr kw (toLowerChars d) = true := isSubstr_of_contains_exact_word hword
  have hpred : ((clothing_keywords t).any fun k => isSubstr k (toLowerChars d)) = true :=
    List.any_eq_true.mpr ⟨kw, hkw, hsub⟩
  cases hf : clothingTypeOrder.find?
      (fun ty => (clothing_keywords ty).any fun k => isSubstr k (toLowerChars d)) with
  | none =>
    exact absurd hpred
      (by simpa using List.find?_eq_none.mp hf t (mem_clothingTypeOrder t))
  | some t' =>
    obtain ⟨conf, hconf⟩ := calculate_confidence_isSome (toLowerChars d)
    have hlab : label_clothing_from_text d = some
        { type := typeValue t'
          styles := styleOrder.filter fun s =>
            (style_keywords s).any fun kw => isSubstr kw (toLowerChars d)
          weather_suitability := predict_weather_suitability (toLowerChars d)
          formality_level := predict_formality (toLowerChars d)
          warmth_rating := predict_warmth (toLowerChars d)
          confidence := conf } := by
      simp only [label_clothing_from_text, hconf, hf]
    refine ⟨_, t', hlab, rfl, ?_, typeValue_ne_unknown t'⟩
    have hp := List.find?_some hf
    exact hp

/-- Witness for C5 (amended): instantiated at the description "hoodie". -/
theorem classify_exact_keyword_detects_type_witness :
    ∃ r t', label_clothing_from_text "hoodie".data = some r ∧
      r.type = typeValue t' ∧
      ((clothing_keywords t').any fun k => isSubstr k (toLowerChars "hoodie".data)) = true ∧
      r.type ≠ "unknown".data :=
  classify_exact_keyword_detects_type "hoodie".data ClothingType.hoodie "hoodie".data
    (by decide) (by decide)

/-- C7: `classify` on the empty description returns type "unknown", no
styles, weather suitability `[mild]`, formality 5, warmth 5 and confidence
0.0, with the word-count division guarded (a normal `some` result). -/
theorem classify_empty_description :
    label_clothing_from_text [] = some
      { type := "unknown".data, styles := [], weather_suitability := [.mild]
        formality_level := 5, warmth_rating := 5, confidence := 0 } := by
  have hc : calculate_confidence (toLowerChars []) = some 0 := by
    norm_num [calculate_confidence, splitWords, splitWordsAux, safeDivNat, toLowerChars]
  simp only [label_clothing_from_text, hc]
  rfl

/-- C8: the formality score is monotone in the formal-keyword count — adding
one formal keyword (leaving the casual-keyword count unchanged) never
decreases `_predict_formality`. -/
theorem formality_monotone (d d' : List Char)
    (hf : formalScoreOf d' = formalScoreOf d + 1)
    (hc : casualScoreOf d' = casualScoreOf d) :
    predict_formality d ≤ predict_formality d' := by
  simp only [predict_formality, hf, hc]
  push_cast
  simp only [min_def, max_def]
  split_ifs <;> omega

/-- Witness for C8: instantiated at the descriptions "" and "formal". -/
theorem formality_monotone_witness :
    predict_formality [] ≤ predict_formality "formal".data :=
  formality_monotone [] "formal".data (by decide) (by decide)

lemma confidence_char {wardrobe : List ClothingItem} {w v o : List Char} {rng : Rng}
    {res : OutfitResult} (h : suggest_outfit wardrobe w v o rng = some res) :
    (res.outfit = [] → res.confidence = 0) ∧
    (res.outfit ≠ [] → res.confidence = 1 ∧
      res.confidence = (res.outfit.countP fun item =>
        decide (parse_weather w ∈ item.weather_suitability) : ℚ) /
        (res.outfit.length : ℚ)) := by
  obtain ⟨hc, hq⟩ := suggest_outfit_inv h
  have hsuits := suggest_outfit_suits h
  constructor
  · intro hemp
    rw [hemp] at hq
    have hz : calculate_outfit_confidence [] (parse_weather w) = some 0 := rfl
    rw [hz] at hq
    exact (Option.some.inj hq).symm
  · intro hne
    have hlen0 : res.outfit.length ≠ 0 := by
      simpa using (List.length_pos.mpr hne).ne'
    have hE : res.outfit.isEmpty = false := by
      cases hb : res.outfit.isEmpty
      · rfl
      · exact absurd (List.isEmpty_iff.mp hb) hne
    have hcnt : (res.outfit.countP fun item =>
        decide (parse_weather w ∈ item.weather_suitability)) = res.outfit.length :=
      List.countP_eq_length.mpr fun a ha => decide_eq_true (hsuits a ha)
    simp only [calculate_outfit_confidence, hE, Bool.false_eq_true, if_false,
      safeDivNat, if_neg hlen0] at hq
    have hq2 := (Option.some.inj hq).symm
    have h1 : res.confidence = 1 := by
      rw [hq2, hcnt]
      exact div_self (Nat.cast_ne_zero.mpr hlen0)
    exact ⟨h1, hq2⟩

/-- C2: for every wardrobe state, weather/vibe/occasion strings and every
outcome of the random choices, the outfit returned by `suggest_outfit` never
contains both a dress and a top, contains at most one top-or-dress, at most
one bottom (none when a dress is chosen), at most one pair of shoes and at
most one outerwear piece. -/
theorem outfit_mutual_exclusion (wardrobe : List ClothingItem) (w v o : List Char)
    (rng : Rng) (res : OutfitResult)
    (h : suggest_outfit wardrobe w v o rng = some res) :
    ¬((∃ x ∈ res.outfit, x.type = ClothingType.dress) ∧
      (∃ x ∈ res.outfit, isTopType x.type = true)) ∧
    res.outfit.countP
      (fun x => isTopType x.type || decide (x.type = ClothingType.dress)) ≤ 1 ∧
    res.outfit.countP (fun x => isBottomType x.type) ≤ 1 ∧
    ((∃ x ∈ res.outfit, x.type = ClothingType.dress) →
      res.outfit.countP (fun x => isBottomType x.type) = 0) ∧
    res.outfit.countP (fun x => isShoeType x.type) ≤ 1 ∧
    res.outfit.countP (fun x => decide (x.type = ClothingType.jacket)) ≤ 1 :=
  outfit_shape (suggest_outfit_inv h).1

/-- Witness for C2: instantiated on the one-item wardrobe `[teeItem]` with
weather "hot", vibe "casual" and draw outcome `rngZero`. -/
theorem outfit_mutual_exclusion_witness :
    ¬((∃ x ∈ teeResult.outfit, x.type = ClothingType.dress) ∧
      (∃ x ∈ teeResult.outfit, isTopType x.type = true)) ∧
    teeResult.outfit.countP
      (fun x => isTopType x.type || decide (x.type = ClothingType.dress)) ≤ 1 ∧
    teeResult.outfit.countP (fun x => isBottomType x.type) ≤ 1 ∧
    ((∃ x ∈ teeResult.outfit, x.type = ClothingType.dress) →
      teeResult.outfit.countP (fun x => isBottomType x.type) = 0) ∧
    teeResult.outfit.countP (fun x => isShoeType x.type) ≤ 1 ∧
    teeResult.outfit.countP (fun x => decide (x.type = ClothingType.jacket)) ≤ 1 :=
  outfit_mutual_exclusion [teeItem] "hot".data "casual".data "general".data rngZero
    teeResult suggest_outfit_tee

/-- C3: the confidence returned by `suggest_outfit` equals the count of chosen
items whose weather suitability contains the requested band divided by the
count of chosen items (0.0 when the outfit is empty); it always lies in
[0, 1] and is 0 exactly when the outfit is empty. -/
theorem outfit_confidence_formula (wardrobe : List ClothingItem) (w v o : List Char)
    (rng : Rng) (res : OutfitResult)
    (h : suggest_outfit wardrobe w v o rng = some res) :
    res.confidence = (if res.outfit = [] then 0
      else (res.outfit.countP fun item =>
        decide (parse_weather w ∈ item.weather_suitability) : ℚ) /
        (res.outfit.length : ℚ)) ∧
    0 ≤ res.confidence ∧ res.confidence ≤ 1 ∧
    (res.confidence = 0 ↔ res.outfit = []) := by
  obtain ⟨h0, h1⟩ := confidence_char h
  by_cases hemp : res.outfit = []
  · have hz := h0 hemp
    rw [if_pos hemp, hz]
    refine ⟨rfl, le_refl 0, by norm_num, by simp [hemp]⟩
  · obtain ⟨hone, hformula⟩ := h1 hemp
    rw [if_neg hemp]
    refine ⟨hformula, by rw [hone]; norm_num, by rw [hone], ?_⟩
    constructor
    · intro hzero
      rw [hone] at hzero
      norm_num at hzero
    · intro he
      exact absurd he hemp

/-- Witness for C3: instantiated on the one-item wardrobe `[teeItem]` with
weather "hot", vibe "casual" and draw outcome `rngZero`. -/
theorem outfit_confidence_formula_witness :
    teeResult.confidence = (if teeResult.outfit = [] then 0
      else (teeResult.outfit.countP fun item =>
        decide (parse_weather "hot".data ∈ item.weather_suitability) : ℚ) /
        (teeResult.outfit.length : ℚ)) ∧
    0 ≤ teeResult.confidence ∧ teeResult.confidence ≤ 1 ∧
    (teeResult.confidence = 0 ↔ teeResult.outfit = []) :=
  outfit_confidence_formula [teeItem] "hot".data "casual".data "general".data rngZero
    teeResult suggest_outfit_tee

/-- C6: every externally supplied weather string that matches none of the
seven WeatherBand tokens case-insensitively is silently normalized to the
band `mild`, and `suggest_outfit` returns normally for it. -/
theorem weather_default_mild (w : List Char)
    (hw : ∀ b : WeatherType, toLowerChars w ≠ weatherValue b) :
    parse_weather w = WeatherType.mild ∧
    ∀ (wardrobe : List ClothingItem) (v o : List Char) (rng : Rng),
      (suggest_outfit wardrobe w v o rng).isSome = true := by
  constructor
  · simp only [parse_weather]
    have hnone : weatherOrder.find?
        (fun b => decide (weatherValue b = toLowerChars w)) = none := by
      rw [List.find?_eq_none]
      intro b _
      simp only [decide_eq_true_eq]
      exact fun hh => hw b hh.symm
    rw [hnone]
  · intro wardrobe v o rng
    exact suggest_outfit_isSome wardrobe w v o rng

/-- Witness for C6: instantiated at the unrecognized weather string
"Tornado". -/
theorem weather_default_mild_witness :
    parse_weather "Tornado".data = WeatherType.mild ∧
    (suggest_outfit [teeItem] "Tornado".data "casual".data "general".data
      rngZero).isSome = true := by
  have h := weather_default_mild "Tornado".data (by decide)
  exact ⟨h.1, h.2 [teeItem] "casual".data "general".data rngZero⟩

/-- C9: the core operations always return normally — `classify` yields a
result for every description string, and `suggest_outfit` yields a result for
every wardrobe state, every weather/vibe/occasion string, and every outcome of
the random choices; every guard keeps the error branches (`none`)
unreachable. -/
theorem core_operations_total :
    (∀ d : List Char, (label_clothing_from_text d).isSome = true) ∧
    (∀ (wardrobe : List ClothingItem) (w v o : List Char) (rng : Rng),
      (suggest_outfit wardrobe w v o rng).isSome = true) := by
  constructor
  · intro d
    obtain ⟨r, hr⟩ := label_clothing_from_text_isSome d
    rw [hr]
    rfl
  · intro wardrobe w v o rng
    exact suggest_outfit_isSome wardrobe w v o rng

/-- C10: whenever `suggest_outfit` returns a non-empty outfit, its confidence
is exactly 1: every chosen item already passed the weather filter, so its
weather suitability contains the requested band. -/
theorem nonempty_outfit_confidence_one (wardrobe : List ClothingItem)
    (w v o : List Char) (rng : Rng) (res : OutfitResult)
    (h : suggest_outfit wardrobe w v o rng = some res) (hne : res.outfit ≠ []) :
    res.confidence = 1 :=
  ((confidence_char h).2 hne).1

/-- Witness for C10: instantiated on the one-item wardrobe `[teeItem]` with
weather "hot", vibe "casual" and draw outcome `rngZero`. -/
theorem nonempty_outfit_confidence_one_witness : teeResult.confidence = 1 :=
  nonempty_outfit_confidence_one [teeItem] "hot".data "casual".data "general".data
    rngZero teeResult suggest_outfit_tee (by decide)

end DripScript
